import Mathlib

/-!
Verification of the rubric classification engine of the Launchpad-Innovation
repository: the `OptimizedPrototypeClassifier` class of `utils_groq_PT.py`
(LRU-cached, retrying classifier with sync, async and batch entry points) and
the `classify_problem_statement` / `_parse_classification_response` functions
of `utlis_groq.py` (error-as-value envelope variant).

Python strings are modelled as Lean `String` (with list-of-char helpers for
the `str` operations used), `collections.OrderedDict` as an association list
in insertion order (head = oldest), the network call to the model as an
oracle parameter giving the outcome of each attempt, and exceptions as
explicit error values.
-/

namespace Launchpad

/-! ## Python string operations -/

/-- Python `str.strip()`: remove leading and trailing whitespace. -/
def pyStrip (s : String) : String :=
  String.mk (((s.data.dropWhile Char.isWhitespace).reverse.dropWhile
      Char.isWhitespace).reverse)

/-- Python slicing `s[:n]`. -/
def pySlice (n : Nat) (s : String) : String :=
  String.mk (s.data.take n)

/-- Python `str.lower()`. -/
def pyLower (s : String) : String :=
  String.mk (s.data.map Char.toLower)

/-- Whether `sub` starts the list `l` (helper for substring testing). -/
def startsWithChars : List Char → List Char → Bool
  | [], _ => true
  | _ :: _, [] => false
  | a :: as, b :: bs => a == b && startsWithChars as bs

/-- Whether `sub` occurs contiguously inside `l`. -/
def containsChars (sub : List Char) : List Char → Bool
  | [] => startsWithChars sub []
  | b :: bs => startsWithChars sub (b :: bs) || containsChars sub bs

/-- Python `sub in s` on strings (substring containment). -/
def pyIn (sub s : String) : Bool :=
  containsChars sub.data s.data

/-! ## Model responses and JSON parsing -/

/-- Abstract model of the raw text of a model response body.  `text` is the
raw string; `parsed` models what `json.loads` yields on it: `none` when it is
not valid JSON, or the (string-valued) fields of the JSON object.  Only
string-valued object fields matter to the code under verification. -/
structure RawResponse where
  text : String
  parsed : Option (List (String × String))
deriving DecidableEq

/-- `json.loads(response_text)`, as modelled by `RawResponse`. -/
def jsonLoads (r : RawResponse) : Option (List (String × String)) :=
  r.parsed

/-- Python `payload[k]` on a JSON object: the first field named `k`, if any. -/
def lookupField (k : String) : List (String × String) → Option String
  | [] => none
  | (k', v) :: rest => if k' = k then some v else lookupField k rest

/-! ## The LRU cache (`collections.OrderedDict`), head = oldest entry -/

/-- A cached classification result: `(x_category, y_category)`. -/
abbrev CacheVal := String × String

/-- `OrderedDict[str, Tuple[str, str]]` in insertion order, head = oldest. -/
abbrev Cache := List (String × CacheVal)

/-- Dictionary lookup `cache[key]` / membership `key in cache`. -/
def odGet (k : String) : Cache → Option CacheVal
  | [] => none
  | (k', v) :: rest => if k' = k then some v else odGet k rest

/-- Dictionary assignment `cache[key] = v`: overwrite in place if the key is
present (an `OrderedDict` keeps the position of an existing key), append at
the most-recent end otherwise. -/
def odSet (k : String) (v : CacheVal) : Cache → Cache
  | [] => [(k, v)]
  | (k', v') :: rest => if k' = k then (k, v) :: rest else (k', v') :: odSet k v rest

/-- Removal of the (first) entry with key `k` (helper for `move_to_end`). -/
def odErase (k : String) : Cache → Cache
  | [] => []
  | (k', v') :: rest => if k' = k then rest else (k', v') :: odErase k rest

/-- `OrderedDict.move_to_end(key)`: the entry moves to the most-recently-used
(last) position.  The source only calls it on keys known to be present; on an
absent key this model is the identity. -/
def odMoveToEnd (k : String) (c : Cache) : Cache :=
  match odGet k c with
  | none => c
  | some v => odErase k c ++ [(k, v)]

/-- `OrderedDict.popitem(last=False)`: evict the oldest (head) entry. -/
def odPopOldest : Cache → Cache
  | [] => []
  | _ :: rest => rest

/-- The keys of the cache, oldest first. -/
def odKeys (c : Cache) : List String :=
  c.map Prod.fst

/-! ## The prompt (`_PROMPT`) and the closed vocabularies it enumerates -/

/-- The X-axis (communication quality) vocabulary enumerated by `_PROMPT`,
items 1-16. -/
def xVocabulary : List String :=
  [ "Does not have grammar"
  , "Does not Demonstrate Understanding Only"
  , "Is not Precise and To the Point"
  , "Lacks Visual Clarity"
  , "Info is not Well-Structured and Is not Easy to Understand"
  , "Does not have Grammar + Lacks Visual Clarity"
  , "Has some Grammar"
  , "Demonstrates some Understanding"
  , "Is somewhat Precise and To the Point"
  , "Has some Visual Clarity"
  , "Info is somewhat Well-Structured and fairly Easy to Understand"
  , "Has some Grammar + Has some Visual Clarity"
  , "Has Very Good Grammar + Demonstrates Very Good Understanding"
  , "Has Very Good Grammar + Has Clear Visual Clarity"
  , "Is Precise and To the Point + Has Clear Visual Clarity"
  , "Has Very Good Grammar + Demonstrates Very Good Understanding + Has Clear Visual Clarity" ]

/-- The Y-axis (project completeness) vocabulary enumerated by `_PROMPT`,
items 1-31. -/
def yVocabulary : List String :=
  [ "Clear Product/Service Description"
  , "Prototype Status"
  , "Unique Value Statement"
  , "User Interaction Description"
  , "Technical/Practical Feasibility Evidence"
  , "Product Description + Prototype Status"
  , "Product Description + Unique Value Statement"
  , "Product Description + User Interaction Description"
  , "Product Description + Technical/Practical Feasibility Evidence"
  , "Prototype Status + Unique Value Statement"
  , "Prototype Status + User Interaction Description"
  , "Prototype Status + Technical/Practical Feasibility Evidence"
  , "Unique Value Statement + User Interaction Description"
  , "Unique Value Statement + Technical/Practical Feasibility Evidence"
  , "User Interaction Description + Technical/Practical Feasibility Evidence"
  , "Product Description + Prototype Status + Unique Value Statement"
  , "Product Description + Prototype Status + User Interaction Description"
  , "Product Description + Prototype Status + Technical/Practical Feasibility Evidence"
  , "Product Description + Unique Value Statement + User Interaction Description"
  , "Product Description + Unique Value Statement + Technical/Practical Feasibility Evidence"
  , "Product Description + User Interaction Description + Technical/Practical Feasibility Evidence"
  , "Prototype Status + Unique Value Statement + User Interaction Description"
  , "Prototype Status + Unique Value Statement + Technical/Practical Feasibility Evidence"
  , "Prototype Status + User Interaction Description + Technical/Practical Feasibility Evidence"
  , "Unique Value Statement + User Interaction Description + Technical/Practical Feasibility Evidence"
  , "Product Description + Prototype Status + Unique Value Statement + User Interaction Description"
  , "Product Description + Prototype Status + Unique Value Statement + Technical/Practical Feasibility Evidence"
  , "Product Description + Prototype Status + User Interaction Description + Technical/Practical Feasibility Evidence"
  , "Product Description + Unique Value Statement + User Interaction Description + Technical/Practical Feasibility Evidence"
  , "Prototype Status + Unique Value Statement + User Interaction Description + Technical/Practical Feasibility Evidence"
  , "Clear Product/Service Description + Prototype Status + Unique Value Statement + User Interaction Description + Technical/Practical Feasibility Evidence" ]

/-- The fixed text of `_PROMPT` before the `{description}` placeholder.  The
full rubric wording is a static configuration constant whose exact content no
verified property depends on; it is abbreviated here to its first and last
lines. -/
def promptTextBefore : String :=
  "IMPORTANT: Return EXACT strings from the lists below. [rubric text] **STUDENT DESCRIPTION TO ANALYZE:**\n"

/-- The fixed text of `_PROMPT` after the `{description}` placeholder. -/
def promptTextAfter : String :=
  "\n\nReturn ONLY a valid JSON object with keys \"X_Axis_Rubric_Category\" and \"Y_Axis_Rubric_Category\".\n"

/-- `self._PROMPT.format(description=d)`: the fixed text with `d`
substituted at the placeholder. -/
def promptFormat (d : String) : String :=
  promptTextBefore ++ d ++ promptTextAfter

/-- The prompt `classify` / `classify_sync` assemble and send:
`_PROMPT.format(description=description[:2000])` after
`description = description.strip()`. -/
def sentPrompt (description : String) : String :=
  promptFormat (pySlice 2000 (pyStrip description))

/-! ## The classifier -/

/-- Model of an `OptimizedPrototypeClassifier` instance.  `hashFn` models the
static `_hash` helper, `hashlib.md5(text.encode()).hexdigest()[:16]`: an
external-library digest kept abstract; theorems that need distinct digests
for distinct texts take that as a hypothesis.  Defaults in the source:
`max_retries=2`, `cache_size=50`, and the cache starts empty. -/
structure Classifier where
  maxRetries : Nat
  cacheSize : Nat
  hashFn : String → String
  cache : Cache

/-- One outcome of `chat.completions.create(...)` (async or sync client): the
call raises with message `msg`, or returns a completion whose
`choices[0].message.content` is falsy (`none`), or is the raw body `raw`. -/
inductive CallOutcome
  | raised (msg : String)
  | respond (content : Option RawResponse)
deriving DecidableEq

/-- The exception raised by (or out of) one attempt, caught by the
`except Exception` handler of the retry loop. -/
inductive AttemptFailure
  | apiRaised (msg : String)
  | emptyResponse
  | notJson
  | missingKey (k : String)
deriving DecidableEq

/-- The terminal error of `classify` / `classify_sync`:
`ClassificationError("Description cannot be empty.")`, or
`ClassificationError(f"Classification failed after {n} attempts: {last_err}")`. -/
inductive ClassifyError
  | emptyInput
  | exhausted (attempts : Nat) (lastErr : Option AttemptFailure)
deriving DecidableEq

/-- `_parse_response_and_update_cache(response_text, cache_key)`: parse the
JSON body, read the two required keys (a missing key is a `KeyError`), store
the pair in the cache and evict the oldest entry if the cache now exceeds
`cache_size`.  No step checks the values against any vocabulary. -/
def parseResponseAndUpdateCache (size : Nat) (cache : Cache) (raw : RawResponse)
    (cacheKey : String) : Except AttemptFailure (CacheVal × Cache) :=
  match jsonLoads raw with
  | none => .error .notJson
  | some payload =>
    match lookupField "X_Axis_Rubric_Category" payload with
    | none => .error (.missingKey "X_Axis_Rubric_Category")
    | some xCat =>
      match lookupField "Y_Axis_Rubric_Category" payload with
      | none => .error (.missingKey "Y_Axis_Rubric_Category")
      | some yCat =>
        let afterSet := odSet cacheKey (xCat, yCat) cache
        let afterEvict := if size < afterSet.length then odPopOldest afterSet else afterSet
        .ok ((xCat, yCat), afterEvict)

/-- The body of one attempt of the retry loop: the client call outcome, then
the empty-content check, then parsing and cache update. -/
def attemptOnce (size : Nat) (cache : Cache) (key : String) :
    CallOutcome → Except AttemptFailure (CacheVal × Cache)
  | .raised msg => .error (.apiRaised msg)
  | .respond none => .error .emptyResponse
  | .respond (some raw) => parseResponseAndUpdateCache size cache raw key

/-- Result of `classify`: the value or error, the classifier state after the
call, the number of model invocations made, and the number of backoff sleeps
performed. -/
structure LoopOut where
  result : Except ClassifyError CacheVal
  cache : Cache
  calls : Nat
  sleeps : Nat

/-- The retry loop `for attempt in range(1, max_retries + 1)` of `classify` /
`classify_sync`: run one attempt; on success return its value and updated
cache; on failure record the error, sleep, and try again; once attempts are
exhausted raise `ClassificationError` carrying the last error. -/
def classifyLoop (maxR size : Nat) (key : String) (oracle : Nat → CallOutcome)
    (cache : Cache) : Nat → Nat → Option AttemptFailure → LoopOut
  | _, 0, lastErr => ⟨.error (.exhausted maxR lastErr), cache, 0, 0⟩
  | attempt, remaining + 1, _ =>
    match attemptOnce size cache key (oracle attempt) with
    | .ok (v, cache') => ⟨.ok v, cache', 1, 0⟩
    | .error f =>
      let rest := classifyLoop maxR size key oracle cache (attempt + 1) remaining (some f)
      ⟨rest.result, rest.cache, rest.calls + 1, rest.sleeps + 1⟩

/-- Result of a `classify` call: value or error, updated classifier, count of
model invocations, count of backoff sleeps. -/
structure Step where
  result : Except ClassifyError CacheVal
  state : Classifier
  calls : Nat
  sleeps : Nat

/-- `OptimizedPrototypeClassifier.classify(description)` (async path):
strip the input and reject it if empty; hash the stripped text for the cache
key; on a hit, promote the entry and return it with no model call; on a miss,
assemble the prompt from the first 2000 stripped characters and run the retry
loop.  The model endpoint is the oracle: `oracle prompt attempt` is the
outcome of the attempt-numbered call carrying `prompt`. -/
def Classifier.classify (st : Classifier) (oracle : String → Nat → CallOutcome)
    (description : String) : Step :=
  let d := pyStrip description
  if d = "" then ⟨.error .emptyInput, st, 0, 0⟩
  else
    let key := st.hashFn d
    match odGet key st.cache with
    | some v => ⟨.ok v, { st with cache := odMoveToEnd key st.cache }, 0, 0⟩
    | none =>
      let prompt := promptFormat (pySlice 2000 d)
      let out := classifyLoop st.maxRetries st.cacheSize key (oracle prompt) st.cache 1
        st.maxRetries none
      ⟨out.result, { st with cache := out.cache }, out.calls, out.sleeps⟩

/-- `OptimizedPrototypeClassifier.classify_sync(description)`: the
synchronous fallback.  Its body repeats the logic of `classify` line for
line, with the synchronous client and `time.sleep` in place of the async
client and `asyncio.sleep`; both reduce to the same state transformer over
the shared `_cache` and `_hash`. -/
def Classifier.classifySync (st : Classifier) (oracle : String → Nat → CallOutcome)
    (description : String) : Step :=
  let d := pyStrip description
  if d = "" then ⟨.error .emptyInput, st, 0, 0⟩
  else
    let key := st.hashFn d
    match odGet key st.cache with
    | some v => ⟨.ok v, { st with cache := odMoveToEnd key st.cache }, 0, 0⟩
    | none =>
      let prompt := promptFormat (pySlice 2000 d)
      let out := classifyLoop st.maxRetries st.cacheSize key (oracle prompt) st.cache 1
        st.maxRetries none
      ⟨out.result, { st with cache := out.cache }, out.calls, out.sleeps⟩

/-- Whether a call outcome fails the attempt, and with which error.  The
failure of an attempt depends only on the outcome (raised exception, falsy
content, JSON decode error, missing key), never on the cache. -/
def outcomeFailure : CallOutcome → Option AttemptFailure
  | .raised msg => some (.apiRaised msg)
  | .respond none => some .emptyResponse
  | .respond (some raw) =>
    match jsonLoads raw with
    | none => some .notJson
    | some payload =>
      match lookupField "X_Axis_Rubric_Category" payload with
      | none => some (.missingKey "X_Axis_Rubric_Category")
      | some _ =>
        match lookupField "Y_Axis_Rubric_Category" payload with
        | none => some (.missingKey "Y_Axis_Rubric_Category")
        | some _ => none

/-- The cache after a successful parse stores the pair and evicts the oldest
entry when the bound is exceeded (the `.ok` branch of
`parseResponseAndUpdateCache`). -/
def cacheAfterStore (size : Nat) (key : String) (v : CacheVal) (cache : Cache) : Cache :=
  let afterSet := odSet key v cache
  if size < afterSet.length then odPopOldest afterSet else afterSet

/-! ## `classify_problem_statement` (`utlis_groq.py`) -/

/-- The result dictionary of `classify_problem_statement` /
`_parse_classification_response`: the `success` flag and the optional keys
`data` (the two rubric categories, always set together), `error` and
`raw_response`. -/
structure Envelope where
  success : Bool
  data : Option (String × String) := none
  error : Option String := none
  rawResponse : Option String := none
deriving DecidableEq

/-- `_parse_classification_response(response_text)`: on a JSON decode error,
a failure envelope preserving the raw text; when a required key is missing,
a failure envelope preserving the raw text; otherwise a success envelope
carrying both categories. -/
def parseClassificationResponse (responseText : RawResponse) : Envelope :=
  match jsonLoads responseText with
  | none =>
    { success := false
      error := some "Failed to parse JSON from response"
      rawResponse := some responseText.text }
  | some parsed =>
    match lookupField "X_Axis_Rubric_Category" parsed,
        lookupField "Y_Axis_Rubric_Category" parsed with
    | some x, some y => { success := true, data := some (x, y) }
    | _, _ =>
      { success := false
        error := some "JSON response missing required keys."
        rawResponse := some responseText.text }

/-- One outcome of the `client.chat.completions.create` call inside
`classify_problem_statement`: the call raises with message `msg`, returns a
completion with no choices or falsy content, or returns raw body `raw`. -/
inductive PSCallOutcome
  | raised (msg : String)
  | noContent
  | content (raw : RawResponse)
deriving DecidableEq

/-- Result of a `classify_problem_statement` call.  `envelope = none` models
the Python function returning `None` (the loop falling through without a
`return`); the count fields track model invocations and `time.sleep`
backoffs. -/
structure PSOut where
  envelope : Option Envelope
  calls : Nat
  sleeps : Nat
deriving DecidableEq

/-- The user prompt assembled from the two texts. -/
def psUserPrompt (ideaText problemStatementText : String) : String :=
  "\n**IDEA PROVIDED:**\n" ++ ideaText ++ "\n\n**PROBLEM STATEMENT TO EVALUATE:**\n"
    ++ problemStatementText ++ "\n"

/-- The retry loop `for attempt in range(max_retries)` of
`classify_problem_statement` (`max_retries = 3`): an exception whose message
contains `"authentication"` or `"rate_limit"` (lowercased) returns at once;
any other exception, and an empty response, back off and retry unless this
was the last attempt; a non-empty response is parsed and returned. -/
def psLoop (oracle : Nat → PSCallOutcome) (maxR : Nat) :
    Nat → Nat → PSOut
  | _, 0 => ⟨none, 0, 0⟩
  | attempt, remaining + 1 =>
    match oracle attempt with
    | .raised msg =>
      if pyIn "authentication" (pyLower msg) then
        ⟨some { success := false
                error := some "Invalid API key. Please check your OPENAI_API_KEY." }, 1, 0⟩
      else if pyIn "rate_limit" (pyLower msg) then
        ⟨some { success := false
                error := some "API rate limit exceeded. Please check your API usage limits." },
          1, 0⟩
      else if attempt < maxR - 1 then
        let rest := psLoop oracle maxR (attempt + 1) remaining
        ⟨rest.envelope, rest.calls + 1, rest.sleeps + 1⟩
      else
        ⟨some { success := false
                error := some ("An unexpected error occurred: " ++ msg) }, 1, 0⟩
    | .noContent =>
      if attempt < maxR - 1 then
        let rest := psLoop oracle maxR (attempt + 1) remaining
        ⟨rest.envelope, rest.calls + 1, rest.sleeps + 1⟩
      else
        ⟨some { success := false, error := some "Empty response from API" }, 1, 0⟩
    | .content raw => ⟨some (parseClassificationResponse raw), 1, 0⟩

/-- `classify_problem_statement(idea_text, problem_statement_text)`: validate
the `GROQ_API_KEY` environment value (`none` models an unset variable; an
empty value is equally falsy), reject a too-short key, then run the retry
loop with `max_retries = 3`.  The `Groq(api_key=...)` constructor returns a
(truthy) client object, so the `if not client` branch of the source is
unreachable and not modelled.  `oracle prompt attempt` is the outcome of the
attempt-numbered call carrying the assembled user prompt. -/
def classifyProblemStatement (apiKey : Option String)
    (oracle : String → Nat → PSCallOutcome)
    (ideaText problemStatementText : String) : PSOut :=
  match apiKey with
  | none =>
    ⟨some { success := false
            error := some "GROQ_API_KEY not found. Please create a .env file and add your key." },
      0, 0⟩
  | some k =>
    if k = "" then
      ⟨some { success := false
              error := some "GROQ_API_KEY not found. Please create a .env file and add your key." },
        0, 0⟩
    else if (pyStrip k).length < 10 then
      ⟨some { success := false, error := some "API key appears to be invalid (too short)." },
        0, 0⟩
    else
      psLoop (oracle (psUserPrompt ideaText problemStatementText)) 3 0 3

/-! ## `classify_batch`: bounded concurrency, order preservation -/

/-- The value one batch worker ends with: what `await self.classify(desc)`
produces for it. -/
abbrev BatchRes := Except ClassifyError CacheVal

deriving instance DecidableEq for Except

/-- The status of one worker task of `classify_batch`. -/
inductive TaskStatus
  | pending
  | running
  | done (r : BatchRes)
deriving DecidableEq

/-- A configuration of `classify_batch`'s cooperative execution: the free
permits of the `asyncio.Semaphore(max_concurrent)` and, for each task in
input position, its description and status. -/
structure BatchState where
  permits : Nat
  tasks : List (String × TaskStatus)

/-- The initial configuration: all permits free, every task pending. -/
def initBatch (maxConcurrent : Nat) (descriptions : List String) : BatchState :=
  ⟨maxConcurrent, descriptions.map (fun d => (d, .pending))⟩

/-- One cooperative scheduling step of `classify_batch`, parameterized by the
per-description classification outcome `f` (the deterministic behaviour of
`await self.classify(d)` under a given stub): a pending task acquires a
permit and starts (`async with semaphore`), or a running task completes with
its outcome and releases its permit — in any order the scheduler chooses. -/
inductive BatchStep (f : String → BatchRes) : BatchState → BatchState → Prop
  | start (p : Nat) (ts : List (String × TaskStatus)) (i : Nat) (d : String) :
      ts.get? i = some (d, .pending) →
      BatchStep f ⟨p + 1, ts⟩ ⟨p, ts.set i (d, .running)⟩
  | finish (p : Nat) (ts : List (String × TaskStatus)) (i : Nat) (d : String) :
      ts.get? i = some (d, .running) →
      BatchStep f ⟨p, ts⟩ ⟨p + 1, ts.set i (d, .done (f d))⟩

/-- The number of classification operations currently in flight. -/
def inFlight (s : BatchState) : Nat :=
  s.tasks.countP (fun t => t.2 = TaskStatus.running)

/-- `asyncio.gather(*tasks)`: once every task is done, the list of their
results in task (= input) order; `none` before that. -/
def gatherResults : List (String × TaskStatus) → Option (List BatchRes)
  | [] => some []
  | (_, .done r) :: rest => (gatherResults rest).map (fun l => r :: l)
  | _ :: _ => none

/-- The inductive invariant of a `classify_batch` execution: descriptions
stay in input position, permits and in-flight tasks balance against
`max_concurrent`, and every finished task holds the outcome for its own
description. -/
def BatchInv (f : String → BatchRes) (maxConcurrent : Nat)
    (descriptions : List String) (s : BatchState) : Prop :=
  s.tasks.map Prod.fst = descriptions ∧
  s.permits + inFlight s = maxConcurrent ∧
  ∀ i d r, s.tasks.get? i = some (d, .done r) → r = f d

/-- The last error `classifyLoop` reports: the initial `last_err` when no
attempt runs, else the failure of the final attempt. -/
def loopLastErr (oracle : Nat → CallOutcome) (attempt remaining : Nat)
    (lastErr : Option AttemptFailure) : Option AttemptFailure :=
  match remaining with
  | 0 => lastErr
  | r + 1 => outcomeFailure (oracle (attempt + r))

/-- The envelope discipline the caller relies on: on success both categories
are present in `data`; on failure an error message is present. -/
def envWf (env : Envelope) : Prop :=
  (env.success = true → ∃ x y, env.data = some (x, y)) ∧
  (env.success = false → env.error.isSome = true)

/-- Sequential classification of a list of descriptions against one shared
classifier (threading the cache through), as the C+1-distinct-texts eviction
scenario performs. -/
def runClassifyAll (st : Classifier) (oracle : String → Nat → CallOutcome) :
    List String → Classifier
  | [] => st
  | d :: ds => runClassifyAll (st.classify oracle d).state oracle ds

/-! ## Lemmas about Python string operations -/

theorem dropWhile_eq_self_of_all {p : Char → Bool} :
    ∀ (l : List Char), (∀ c ∈ l, p c = false) → l.dropWhile p = l := by
  intro l h
  cases l with
  | nil => rfl
  | cons a t =>
    rw [List.dropWhile_cons]
    rw [h a (by simp)]
    simp

/-- A string with no whitespace characters strips to itself. -/
theorem pyStrip_eq_self {s : String}
    (h : ∀ c ∈ s.data, Char.isWhitespace c = false) : pyStrip s = s := by
  unfold pyStrip
  rw [dropWhile_eq_self_of_all s.data h]
  rw [dropWhile_eq_self_of_all s.data.reverse (by intro c hc; exact h c (List.mem_reverse.mp hc))]
  rw [List.reverse_reverse]

/-! ## Lemmas about the cache operations -/

theorem odGet_eq_none_of_not_mem {k : String} {c : Cache} (h : k ∉ odKeys c) :
    odGet k c = none := by
  induction c with
  | nil => rfl
  | cons e rest ih =>
    simp only [odKeys, List.map_cons, List.mem_cons, not_or] at h
    simp only [odGet]
    rw [if_neg (fun he => h.1 he.symm)]
    exact ih h.2

theorem mem_odKeys_of_odGet_some {k : String} {c : Cache} {v : CacheVal}
    (h : odGet k c = some v) : k ∈ odKeys c := by
  induction c with
  | nil => simp [odGet] at h
  | cons e rest ih =>
    simp only [odGet] at h
    by_cases he : e.1 = k
    · simp [odKeys, he]
    · rw [if_neg he] at h
      simp only [odKeys, List.map_cons, List.mem_cons]
      exact Or.inr (ih h)

theorem odSet_of_get_none {k : String} {v : CacheVal} {c : Cache}
    (h : odGet k c = none) : odSet k v c = c ++ [(k, v)] := by
  induction c with
  | nil => rfl
  | cons e rest ih =>
    simp only [odGet] at h
    by_cases he : e.1 = k
    · rw [if_pos he] at h; cases h
    · rw [if_neg he] at h
      simp only [odSet, if_neg he, List.cons_append, List.cons.injEq, true_and]
      exact ih h

theorem odGet_append_right {k : String} {c l : Cache} (h : odGet k c = none) :
    odGet k (c ++ l) = odGet k l := by
  induction c with
  | nil => rfl
  | cons e rest ih =>
    simp only [odGet] at h
    by_cases he : e.1 = k
    · rw [if_pos he] at h; cases h
    · rw [if_neg he] at h
      simp only [List.cons_append, odGet, if_neg he]
      exact ih h

theorem odGet_singleton_self (k : String) (v : CacheVal) :
    odGet k [(k, v)] = some v := by
  simp [odGet]

theorem odGet_tail_none {k : String} {c : Cache} (h : odGet k c = none) :
    odGet k c.tail = none := by
  cases c with
  | nil => rfl
  | cons e rest =>
    simp only [odGet] at h
    by_cases he : e.1 = k
    · rw [if_pos he] at h; cases h
    · rw [if_neg he] at h; exact h

/-- Storing a fresh key in a cache of positive capacity leaves that key
retrievable with the stored value: the eviction, when it fires, removes the
oldest entry and never the entry just added. -/
theorem odGet_cacheAfterStore_fresh {size : Nat} {k : String} {v : CacheVal} {c : Cache}
    (hmiss : odGet k c = none) (hsize : 1 ≤ size) :
    odGet k (cacheAfterStore size k v c) = some v := by
  unfold cacheAfterStore
  rw [odSet_of_get_none hmiss]
  by_cases hlen : size < (c ++ [(k, v)]).length
  · rw [if_pos hlen]
    cases c with
    | nil =>
      simp only [List.nil_append, List.length_singleton] at hlen
      omega
    | cons e rest =>
      simp only [List.cons_append, odPopOldest]
      have hrest : odGet k rest = none := by
        simpa using @odGet_tail_none k (e :: rest) hmiss
      rw [odGet_append_right hrest]
      exact odGet_singleton_self k v
  · rw [if_neg hlen]
    rw [odGet_append_right hmiss]
    exact odGet_singleton_self k v

theorem odGet_erase_self {k : String} {c : Cache} (h : (odKeys c).Nodup) :
    odGet k (odErase k c) = none := by
  induction c with
  | nil => rfl
  | cons e rest ih =>
    simp only [odKeys, List.map_cons, List.nodup_cons] at h
    simp only [odErase]
    by_cases he : e.1 = k
    · rw [if_pos he]
      apply odGet_eq_none_of_not_mem
      rw [← he]
      exact h.1
    · rw [if_neg he]
      simp only [odGet, if_neg he]
      exact ih h.2

/-- On a cache with unique keys, `move_to_end` preserves the looked-up value
of the moved key. -/
theorem odGet_odMoveToEnd_self {k : String} {c : Cache} (h : (odKeys c).Nodup) :
    odGet k (odMoveToEnd k c) = odGet k c := by
  unfold odMoveToEnd
  cases hg : odGet k c with
  | none => exact hg
  | some v =>
    rw [odGet_append_right (odGet_erase_self h)]
    exact odGet_singleton_self k v

theorem odMoveToEnd_getLast {k : String} {c : Cache} {v : CacheVal}
    (h : odGet k c = some v) : (odMoveToEnd k c).getLast? = some (k, v) := by
  unfold odMoveToEnd
  rw [h]
  exact List.getLast?_concat _

theorem mem_odKeys_odSet {x k : String} {v : CacheVal} {c : Cache}
    (h : x ∈ odKeys (odSet k v c)) : x = k ∨ x ∈ odKeys c := by
  induction c with
  | nil => simpa [odSet, odKeys] using h
  | cons e rest ih =>
    simp only [odSet] at h
    by_cases he : e.1 = k
    · rw [if_pos he] at h
      simp only [odKeys, List.map_cons, List.mem_cons] at h ⊢
      rcases h with h | h
      · exact Or.inl h
      · exact Or.inr (Or.inr h)
    · rw [if_neg he] at h
      simp only [odKeys, List.map_cons, List.mem_cons] at h ⊢
      rcases h with h | h
      · exact Or.inr (Or.inl h)
      · rcases ih h with h' | h'
        · exact Or.inl h'
        · exact Or.inr (Or.inr h')

theorem mem_odKeys_odPopOldest {x : String} {c : Cache}
    (h : x ∈ odKeys (odPopOldest c)) : x ∈ odKeys c := by
  cases c with
  | nil => simp [odPopOldest, odKeys] at h
  | cons e rest =>
    simp only [odPopOldest] at h
    simp only [odKeys, List.map_cons, List.mem_cons]
    exact Or.inr h

theorem mem_odKeys_cacheAfterStore {x : String} {size : Nat} {k : String}
    {v : CacheVal} {c : Cache} (h : x ∈ odKeys (cacheAfterStore size k v c)) :
    x = k ∨ x ∈ odKeys c := by
  unfold cacheAfterStore at h
  by_cases hlen : size < (odSet k v c).length
  · rw [if_pos hlen] at h
    exact mem_odKeys_odSet (mem_odKeys_odPopOldest h)
  · rw [if_neg hlen] at h
    exact mem_odKeys_odSet h

theorem mem_odKeys_odErase {x k : String} {c : Cache}
    (h : x ∈ odKeys (odErase k c)) : x ∈ odKeys c := by
  induction c with
  | nil => exact h
  | cons e rest ih =>
    simp only [odErase] at h
    by_cases he : e.1 = k
    · rw [if_pos he] at h
      simp only [odKeys, List.map_cons, List.mem_cons]
      exact Or.inr h
    · rw [if_neg he] at h
      simp only [odKeys, List.map_cons, List.mem_cons] at h ⊢
      rcases h with h | h
      · exact Or.inl h
      · exact Or.inr (ih h)

theorem mem_odKeys_odMoveToEnd {x k : String} {c : Cache}
    (h : x ∈ odKeys (odMoveToEnd k c)) : x = k ∨ x ∈ odKeys c := by
  unfold odMoveToEnd at h
  cases hg : odGet k c with
  | none => rw [hg] at h; exact Or.inr h
  | some v =>
    rw [hg] at h
    simp only [odKeys, List.map_append, List.mem_append, List.map_cons,
      List.map_nil, List.mem_cons, List.not_mem_nil, or_false] at h
    rcases h with h | h
    · exact Or.inr (mem_odKeys_odErase h)
    · exact Or.inl h

/-- Inserting a fresh key into an exactly-full cache evicts exactly one
entry, the oldest (head) one, and appends the new entry at the
most-recently-used end. -/
theorem cacheAfterStore_full {size : Nat} {k : String} {v : CacheVal} {c : Cache}
    (hmiss : odGet k c = none) (hlen : c.length = size) (hsize : 1 ≤ size) :
    cacheAfterStore size k v c = c.tail ++ [(k, v)] := by
  unfold cacheAfterStore
  rw [odSet_of_get_none hmiss]
  have hlt : size < (c ++ [(k, v)]).length := by
    simp [List.length_append, hlen]
  rw [if_pos hlt]
  cases c with
  | nil => simp at hlen; omega
  | cons e rest => rfl

/-- Inserting a fresh key into a cache below capacity evicts nothing. -/
theorem cacheAfterStore_not_full {size : Nat} {k : String} {v : CacheVal} {c : Cache}
    (hmiss : odGet k c = none) (hlen : c.length < size) :
    cacheAfterStore size k v c = c ++ [(k, v)] := by
  unfold cacheAfterStore
  rw [odSet_of_get_none hmiss]
  have : ¬ size < (c ++ [(k, v)]).length := by
    simp only [List.length_append, List.length_singleton]
    omega
  rw [if_neg this]

/-! ## Lemmas about the retry loop and the classify paths -/

theorem attemptOnce_error_of {size : Nat} {cache : Cache} {key : String}
    {o : CallOutcome} {f : AttemptFailure} (h : outcomeFailure o = some f) :
    attemptOnce size cache key o = .error f := by
  cases o with
  | raised msg =>
    simp only [outcomeFailure, Option.some.injEq] at h
    simp [attemptOnce, ← h]
  | respond content =>
    cases content with
    | none =>
      simp only [outcomeFailure, Option.some.injEq] at h
      simp [attemptOnce, ← h]
    | some raw =>
      simp only [outcomeFailure] at h
      simp only [attemptOnce, parseResponseAndUpdateCache]
      cases hj : jsonLoads raw with
      | none =>
        simp only [hj, Option.some.injEq] at h
        simp [← h]
      | some payload =>
        simp only [hj] at h ⊢
        cases hx : lookupField "X_Axis_Rubric_Category" payload with
        | none =>
          simp only [hx, Option.some.injEq] at h
          simp [← h]
        | some x =>
          simp only [hx] at h ⊢
          cases hy : lookupField "Y_Axis_Rubric_Category" payload with
          | none =>
            simp only [hy, Option.some.injEq] at h
            simp [← h]
          | some y => simp [hy] at h

theorem attemptOnce_ok_of {size : Nat} {cache : Cache} {key : String}
    {raw : RawResponse} {payload : List (String × String)} {x y : String}
    (hj : jsonLoads raw = some payload)
    (hx : lookupField "X_Axis_Rubric_Category" payload = some x)
    (hy : lookupField "Y_Axis_Rubric_Category" payload = some y) :
    attemptOnce size cache key (.respond (some raw)) =
      .ok ((x, y), cacheAfterStore size key (x, y) cache) := by
  simp [attemptOnce, parseResponseAndUpdateCache, hj, hx, hy, cacheAfterStore]

theorem attemptOnce_ok_shape {size : Nat} {cache : Cache} {key : String}
    {o : CallOutcome} {v : CacheVal} {c' : Cache}
    (h : attemptOnce size cache key o = .ok (v, c')) :
    c' = cacheAfterStore size key v cache := by
  cases o with
  | raised msg => simp [attemptOnce] at h
  | respond content =>
    cases content with
    | none => simp [attemptOnce] at h
    | some raw =>
      simp only [attemptOnce, parseResponseAndUpdateCache] at h
      cases hj : jsonLoads raw with
      | none => simp [hj] at h
      | some payload =>
        simp only [hj] at h
        cases hx : lookupField "X_Axis_Rubric_Category" payload with
        | none => simp [hx] at h
        | some x =>
          simp only [hx] at h
          cases hy : lookupField "Y_Axis_Rubric_Category" payload with
          | none => simp [hy] at h
          | some y =>
            simp only [hy, Except.ok.injEq, Prod.mk.injEq] at h
            rw [← h.1, ← h.2]
            rfl

/-- When every attempt fails, the retry loop makes exactly one model call and
one backoff sleep per remaining attempt, leaves the cache untouched, and
raises carrying the last attempt's error. -/
theorem classifyLoop_all_fail {maxR size : Nat} {key : String}
    {oracle : Nat → CallOutcome} {cache : Cache}
    (hfail : ∀ k, (outcomeFailure (oracle k)).isSome = true) :
    ∀ remaining attempt lastErr,
      classifyLoop maxR size key oracle cache attempt remaining lastErr =
        ⟨.error (.exhausted maxR (loopLastErr oracle attempt remaining lastErr)),
          cache, remaining, remaining⟩ := by
  intro remaining
  induction remaining with
  | zero => intro attempt lastErr; rfl
  | succ r ih =>
    intro attempt lastErr
    obtain ⟨f, hf⟩ : ∃ f, outcomeFailure (oracle attempt) = some f := by
      cases ho : outcomeFailure (oracle attempt) with
      | none =>
        have := hfail attempt
        rw [ho] at this
        simp at this
      | some f => exact ⟨f, rfl⟩
    simp only [classifyLoop, attemptOnce_error_of hf, ih (attempt + 1) (some f)]
    cases r with
    | zero => simp [loopLastErr, hf]
    | succ r' =>
      simp only [loopLastErr]
      have : attempt + 1 + r' = attempt + (r' + 1) := by omega
      rw [this]

/-- The retry loop makes at least one model call whenever an attempt
remains. -/
theorem classifyLoop_calls_pos {maxR size : Nat} {key : String}
    {oracle : Nat → CallOutcome} {cache : Cache} {attempt r : Nat}
    {lastErr : Option AttemptFailure} :
    1 ≤ (classifyLoop maxR size key oracle cache attempt (r + 1) lastErr).calls := by
  simp only [classifyLoop]
  cases h : attemptOnce size cache key (oracle attempt) with
  | ok v => cases v; simp
  | error f => simp

/-- When the first of at least two remaining attempts fails, the loop makes
at least two model calls and at least one backoff sleep. -/
theorem classifyLoop_calls_ge_two {maxR size : Nat} {key : String}
    {oracle : Nat → CallOutcome} {cache : Cache} {attempt r : Nat}
    {lastErr : Option AttemptFailure} {f : AttemptFailure}
    (ha : attemptOnce size cache key (oracle attempt) = .error f) :
    2 ≤ (classifyLoop maxR size key oracle cache attempt (r + 2) lastErr).calls ∧
    1 ≤ (classifyLoop maxR size key oracle cache attempt (r + 2) lastErr).sleeps := by
  simp only [classifyLoop, ha]
  constructor
  · show 2 ≤ (classifyLoop maxR size key oracle cache (attempt + 1) (r + 1) (some f)).calls + 1
    have := @classifyLoop_calls_pos maxR size key oracle cache (attempt + 1) r (some f)
    omega
  · show 1 ≤ (classifyLoop maxR size key oracle cache (attempt + 1) (r + 1) (some f)).sleeps + 1
    omega

/-- A successful loop run leaves the cache holding the returned value at the
request's key (modulo the one possible eviction of the oldest entry). -/
theorem classifyLoop_ok_cache {maxR size : Nat} {key : String}
    {oracle : Nat → CallOutcome} {cache : Cache} :
    ∀ {remaining attempt lastErr v},
      (classifyLoop maxR size key oracle cache attempt remaining lastErr).result = .ok v →
      (classifyLoop maxR size key oracle cache attempt remaining lastErr).cache =
        cacheAfterStore size key v cache := by
  intro remaining
  induction remaining with
  | zero => intro attempt lastErr v h; cases h
  | succ r ih =>
    intro attempt lastErr v h
    simp only [classifyLoop] at h ⊢
    cases ha : attemptOnce size cache key (oracle attempt) with
    | ok p =>
      obtain ⟨v', c'⟩ := p
      rw [ha] at h
      simp only at h
      cases h
      simp only [ha]
      exact attemptOnce_ok_shape ha
    | error f =>
      rw [ha] at h
      simp only at h
      simp only [ha]
      exact ih h

/-- `classify` on empty-after-strip input: the `ClassificationError` is
raised before any prompt assembly, model call or cache change. -/
theorem classify_strip_empty {st : Classifier} {o : String → Nat → CallOutcome}
    {d : String} (h : pyStrip d = "") :
    st.classify o d = ⟨.error .emptyInput, st, 0, 0⟩ := by
  simp [Classifier.classify, h]

/-- `classify` on a cache hit: the cached pair is returned with zero model
calls and the entry is promoted to most-recently-used. -/
theorem classify_hit {st : Classifier} {o : String → Nat → CallOutcome}
    {d : String} {v : CacheVal} (hd : pyStrip d ≠ "")
    (hg : odGet (st.hashFn (pyStrip d)) st.cache = some v) :
    st.classify o d =
      ⟨.ok v, { st with cache := odMoveToEnd (st.hashFn (pyStrip d)) st.cache }, 0, 0⟩ := by
  simp [Classifier.classify, hd, hg]

/-- `classify` on a cache miss runs the retry loop on the assembled
prompt. -/
theorem classify_miss {st : Classifier} {o : String → Nat → CallOutcome}
    {d : String} (hd : pyStrip d ≠ "")
    (hg : odGet (st.hashFn (pyStrip d)) st.cache = none) :
    st.classify o d =
      ⟨(classifyLoop st.maxRetries st.cacheSize (st.hashFn (pyStrip d))
          (o (sentPrompt d)) st.cache 1 st.maxRetries none).result,
       { st with cache := (classifyLoop st.maxRetries st.cacheSize (st.hashFn (pyStrip d))
          (o (sentPrompt d)) st.cache 1 st.maxRetries none).cache },
       (classifyLoop st.maxRetries st.cacheSize (st.hashFn (pyStrip d))
          (o (sentPrompt d)) st.cache 1 st.maxRetries none).calls,
       (classifyLoop st.maxRetries st.cacheSize (st.hashFn (pyStrip d))
          (o (sentPrompt d)) st.cache 1 st.maxRetries none).sleeps⟩ := by
  simp [Classifier.classify, hd, hg, sentPrompt]

/-- After a successful `classify`, the cache of the resulting state holds the
returned pair at the request's key, and the configuration fields are
untouched. -/
theorem classify_ok_cached {st : Classifier} {o : String → Nat → CallOutcome}
    {d : String} {x y : String} (hnd : (odKeys st.cache).Nodup)
    (hsize : 1 ≤ st.cacheSize)
    (h : (st.classify o d).result = .ok (x, y)) :
    odGet (st.hashFn (pyStrip d)) (st.classify o d).state.cache = some (x, y) ∧
    (st.classify o d).state.hashFn = st.hashFn ∧
    (st.classify o d).state.cacheSize = st.cacheSize := by
  by_cases hd : pyStrip d = ""
  · rw [classify_strip_empty hd] at h; cases h
  · cases hg : odGet (st.hashFn (pyStrip d)) st.cache with
    | some v =>
      rw [classify_hit hd hg] at h ⊢
      simp only at h
      cases h
      refine ⟨?_, rfl, rfl⟩
      simp only
      rw [odGet_odMoveToEnd_self hnd]
      exact hg
    | none =>
      rw [classify_miss hd hg] at h ⊢
      simp only at h ⊢
      rw [classifyLoop_ok_cache h]
      exact ⟨odGet_cacheAfterStore_fresh hg hsize, trivial, trivial⟩

/-- The shared core of the cache-hit determinism arguments: after a
successful classification of `d`, classifying `d` again returns the same
pair from the cache with zero model calls. -/
theorem classify_again_cached {st : Classifier} {o₁ o₂ : String → Nat → CallOutcome}
    {d : String} {x y : String} (hnd : (odKeys st.cache).Nodup)
    (hsize : 1 ≤ st.cacheSize)
    (h : (st.classify o₁ d).result = .ok (x, y)) :
    ((st.classify o₁ d).state.classify o₂ d).result = .ok (x, y) ∧
    ((st.classify o₁ d).state.classify o₂ d).calls = 0 := by
  have hd : pyStrip d ≠ "" := by
    intro hd
    rw [classify_strip_empty hd] at h
    cases h
  obtain ⟨hcached, hhash, _⟩ := classify_ok_cached hnd hsize h
  have hg : odGet ((st.classify o₁ d).state.hashFn (pyStrip d))
      (st.classify o₁ d).state.cache = some (x, y) := by rw [hhash]; exact hcached
  rw [classify_hit hd hg]
  exact ⟨rfl, rfl⟩

/-! ## Lemmas about `classify_problem_statement` -/

theorem parseClassificationResponse_wf (raw : RawResponse) :
    envWf (parseClassificationResponse raw) := by
  unfold parseClassificationResponse
  cases hj : jsonLoads raw with
  | none => simp [envWf]
  | some payload =>
    cases hx : lookupField "X_Axis_Rubric_Category" payload with
    | none =>
      cases hy : lookupField "Y_Axis_Rubric_Category" payload <;> simp [envWf, hx, hy]
    | some x =>
      cases hy : lookupField "Y_Axis_Rubric_Category" payload <;> simp [envWf, hx, hy]

theorem parseClassificationResponse_notJson {raw : RawResponse}
    (h : jsonLoads raw = none) :
    (parseClassificationResponse raw).success = false ∧
    (parseClassificationResponse raw).rawResponse = some raw.text := by
  simp [parseClassificationResponse, h]

theorem psLoop_wf {oracle : Nat → PSCallOutcome} {maxR : Nat} :
    ∀ remaining attempt, attempt + remaining = maxR → 1 ≤ remaining →
      ∃ env, (psLoop oracle maxR attempt remaining).envelope = some env ∧ envWf env := by
  intro remaining
  induction remaining with
  | zero => intro attempt _ h1; omega
  | succ r ih =>
    intro attempt hsum _
    cases ho : oracle attempt with
    | raised msg =>
      by_cases hauth : pyIn "authentication" (pyLower msg)
      · simp [psLoop, ho, hauth, envWf]
      · by_cases hrate : pyIn "rate_limit" (pyLower msg)
        · simp [psLoop, ho, hauth, hrate, envWf]
        · by_cases hlt : attempt < maxR - 1
          · have hr : 1 ≤ r := by omega
            obtain ⟨env, henv, hwf⟩ := ih (attempt + 1) (by omega) hr
            simp only [psLoop, ho, hauth, hrate, hlt]
            exact ⟨env, henv, hwf⟩
          · simp [psLoop, ho, hauth, hrate, hlt, envWf]
    | noContent =>
      by_cases hlt : attempt < maxR - 1
      · have hr : 1 ≤ r := by omega
        obtain ⟨env, henv, hwf⟩ := ih (attempt + 1) (by omega) hr
        simp only [psLoop, ho, hlt]
        exact ⟨env, henv, hwf⟩
      · simp [psLoop, ho, hlt, envWf]
    | content raw =>
      refine ⟨parseClassificationResponse raw, ?_, parseClassificationResponse_wf raw⟩
      simp [psLoop, ho]

/-- `classify_problem_statement` always returns an envelope obeying the
success/data/error discipline: no execution path raises or falls through. -/
theorem classifyProblemStatement_wf (apiKey : Option String)
    (oracle : String → Nat → PSCallOutcome) (ideaText problemStatementText : String) :
    ∃ env, (classifyProblemStatement apiKey oracle ideaText problemStatementText).envelope
        = some env ∧ envWf env := by
  cases apiKey with
  | none => exact ⟨_, rfl, by simp [envWf]⟩
  | some k =>
    by_cases hk : k = ""
    · simp [classifyProblemStatement, hk, envWf]
    · by_cases hlen : (pyStrip k).length < 10
      · simp [classifyProblemStatement, hk, hlen, envWf]
      · obtain ⟨env, henv, hwf⟩ :=
          @psLoop_wf (oracle (psUserPrompt ideaText problemStatementText))
            3 3 0 (by omega) (by omega)
        simp only [classifyProblemStatement]
        simp only [if_neg hk, if_neg hlen]
        exact ⟨env, henv, hwf⟩

/-! ## Lemmas about the batch scheduler -/

theorem countP_set_balance {α : Type} (p : α → Bool) :
    ∀ (l : List α) (i : Nat) (x a : α), l.get? i = some x →
      (l.set i a).countP p + (if p x then 1 else 0) =
        l.countP p + (if p a then 1 else 0) := by
  intro l
  induction l with
  | nil => intro i x a h; cases h
  | cons b t ih =>
    intro i x a h
    cases i with
    | zero =>
      simp only [List.get?_cons_zero, Option.some.injEq] at h
      subst h
      simp only [List.set_cons_zero, List.countP_cons]
      cases hpa : p a <;> cases hpb : p b <;> simp [hpa, hpb]
    | succ n =>
      simp only [List.get?_cons_succ] at h
      simp only [List.set_cons_succ, List.countP_cons]
      have := ih n x a h
      cases hpb : p b <;> simp [hpb] <;> omega

theorem set_get?_self {α : Type} :
    ∀ (l : List α) (i : Nat) (a : α), l.get? i = some a → l.set i a = l := by
  intro l
  induction l with
  | nil => intro i a h; cases h
  | cons b t ih =>
    intro i a h
    cases i with
    | zero =>
      simp only [List.get?_cons_zero, Option.some.injEq] at h
      simp [List.set_cons_zero, h]
    | succ n =>
      simp only [List.get?_cons_succ] at h
      simp [List.set_cons_succ, ih n a h]

theorem map_set_comm {α β : Type} (f : α → β) :
    ∀ (l : List α) (i : Nat) (a : α), (l.set i a).map f = (l.map f).set i (f a) := by
  intro l
  induction l with
  | nil => intro i a; rfl
  | cons b t ih =>
    intro i a
    cases i with
    | zero => simp [List.set_cons_zero]
    | succ n => simp [List.set_cons_succ, ih]

theorem batchInv_init (f : String → BatchRes) (maxC : Nat) (ds : List String) :
    BatchInv f maxC ds (initBatch maxC ds) := by
  refine ⟨?_, ?_, ?_⟩
  · have hmap : ∀ (l : List String),
        (l.map (fun d => (d, TaskStatus.pending))).map Prod.fst = l := by
      intro l
      induction l with
      | nil => rfl
      | cons a t ih => simp [ih]
    simpa [initBatch] using hmap ds
  · have h0 : inFlight ⟨maxC, ds.map (fun d => (d, TaskStatus.pending))⟩ = 0 := by
      simp [inFlight, List.countP_eq_zero]
    simp [initBatch, h0]
  · intro i d r h
    simp only [initBatch, List.get?_map] at h
    cases hg : ds.get? i with
    | none => rw [hg] at h; cases h
    | some d' => rw [hg] at h; simp at h

theorem batchInv_step {f : String → BatchRes} {maxC : Nat} {ds : List String}
    {s s' : BatchState} (hinv : BatchInv f maxC ds s) (hstep : BatchStep f s s') :
    BatchInv f maxC ds s' := by
  obtain ⟨hfst, hbal, hdone⟩ := hinv
  cases hstep with
  | start p ts i d hi =>
    refine ⟨?_, ?_, ?_⟩
    · simp only [map_set_comm]
      rw [← hfst] at *
      apply set_get?_self
      rw [List.get?_map, hi]
      rfl
    · have hcnt := countP_set_balance (fun t => t.2 = TaskStatus.running) ts i
        (d, .pending) (d, .running) hi
      simp only [inFlight] at hbal ⊢
      simp at hcnt
      simp only [BatchState.permits, BatchState.tasks] at *
      omega
    · intro j d' r h
      by_cases hij : i = j
      · subst hij
        have := List.get?_set_eq (d, TaskStatus.running) i ts
        rw [this] at h
        cases hg : ts.get? i with
        | none => rw [hg] at h; cases h
        | some t => rw [hg] at h; simp at h
      · rw [List.get?_set_ne _ _ hij] at h
        exact hdone j d' r h
  | finish p ts i d hi =>
    refine ⟨?_, ?_, ?_⟩
    · simp only [map_set_comm]
      rw [← hfst] at *
      apply set_get?_self
      rw [List.get?_map, hi]
      rfl
    · have hcnt := countP_set_balance (fun t => t.2 = TaskStatus.running) ts i
        (d, .running) (d, .done (f d)) hi
      simp only [inFlight] at hbal ⊢
      simp at hcnt
      simp only [BatchState.permits, BatchState.tasks] at *
      omega
    · intro j d' r h
      by_cases hij : i = j
      · subst hij
        have hset := List.get?_set_eq (d, TaskStatus.done (f d)) i ts
        rw [hset, hi] at h
        simp at h
        rcases h with ⟨rfl, hr⟩
        exact hr.symm
      · rw [List.get?_set_ne _ _ hij] at h
        exact hdone j d' r h

/-- The invariant holds in every configuration reachable from the initial
one. -/
theorem batchInv_trace {f : String → BatchRes} {maxC : Nat} {ds : List String}
    {s : BatchState}
    (h : Relation.ReflTransGen (BatchStep f) (initBatch maxC ds) s) :
    BatchInv f maxC ds s := by
  induction h with
  | refl => exact batchInv_init f maxC ds
  | tail _ hstep ih => exact batchInv_step ih hstep

theorem gatherResults_eq {f : String → BatchRes} :
    ∀ (ts : List (String × TaskStatus)) (rs : List BatchRes),
      (∀ i d r, ts.get? i = some (d, .done r) → r = f d) →
      gatherResults ts = some rs → rs = (ts.map Prod.fst).map f := by
  intro ts
  induction ts with
  | nil =>
    intro rs _ h
    simp only [gatherResults, Option.some.injEq] at h
    simp [← h]
  | cons t rest ih =>
    intro rs hdone h
    obtain ⟨d, status⟩ := t
    cases status with
    | pending => cases h
    | running => cases h
    | done r =>
      simp only [gatherResults] at h
      cases hg : gatherResults rest with
      | none => rw [hg] at h; cases h
      | some rs' =>
        rw [hg] at h
        simp only [Option.map_some', Option.some.injEq] at h
        have hr : r = f d := hdone 0 d r rfl
        have hrest : rs' = (rest.map Prod.fst).map f := by
          refine ih rs' ?_ hg
          intro i d' r' hi
          exact hdone (i + 1) d' r' (by simpa using hi)
        simp [← h, hr, hrest]

theorem take_append_length {α : Type} (l₁ l₂ : List α) :
    (l₁ ++ l₂).take l₁.length = l₁ := by
  induction l₁ with
  | nil => rfl
  | cons a t ih => simp [ih]

theorem drop_append_length {α : Type} (l₁ l₂ : List α) :
    (l₁ ++ l₂).drop l₁.length = l₂ := by
  induction l₁ with
  | nil => rfl
  | cons a t ih => simp [ih]

/-! ## Key-footprint and configuration-preservation lemmas -/

theorem classifyLoop_keys_subset {maxR size : Nat} {key : String}
    {oracle : Nat → CallOutcome} {cache : Cache} {x : String} :
    ∀ {remaining attempt lastErr},
      x ∈ odKeys (classifyLoop maxR size key oracle cache attempt remaining lastErr).cache →
      x = key ∨ x ∈ odKeys cache := by
  intro remaining
  induction remaining with
  | zero => intro attempt lastErr h; exact Or.inr h
  | succ r ih =>
    intro attempt lastErr h
    simp only [classifyLoop] at h
    cases ha : attemptOnce size cache key (oracle attempt) with
    | ok p =>
      obtain ⟨v, c'⟩ := p
      rw [ha] at h
      simp only at h
      rw [attemptOnce_ok_shape ha] at h
      exact mem_odKeys_cacheAfterStore h
    | error f =>
      rw [ha] at h
      simp only at h
      exact ih h

theorem classify_keys_subset {st : Classifier} {o : String → Nat → CallOutcome}
    {d x : String} (h : x ∈ odKeys (st.classify o d).state.cache) :
    x = st.hashFn (pyStrip d) ∨ x ∈ odKeys st.cache := by
  by_cases hd : pyStrip d = ""
  · rw [classify_strip_empty hd] at h
    exact Or.inr h
  · cases hg : odGet (st.hashFn (pyStrip d)) st.cache with
    | some v =>
      rw [classify_hit hd hg] at h
      exact mem_odKeys_odMoveToEnd h
    | none =>
      rw [classify_miss hd hg] at h
      exact classifyLoop_keys_subset h

theorem classify_config_preserved (st : Classifier) (o : String → Nat → CallOutcome)
    (d : String) :
    (st.classify o d).state.hashFn = st.hashFn ∧
    (st.classify o d).state.maxRetries = st.maxRetries := by
  by_cases hd : pyStrip d = ""
  · rw [classify_strip_empty hd]; exact ⟨rfl, rfl⟩
  · cases hg : odGet (st.hashFn (pyStrip d)) st.cache with
    | some v => rw [classify_hit hd hg]; exact ⟨rfl, rfl⟩
    | none => rw [classify_miss hd hg]; exact ⟨rfl, rfl⟩

/-! ## Claim theorems -/

/-- C3: if every underlying model call yields output that fails parsing or
validation, `classify` performs exactly `max_retries` attempts (model calls),
never more and never fewer, raises a `ClassificationError` carrying the last
underlying error, and leaves the cache unchanged. -/
theorem C3_retry_exhaustion (st : Classifier) (o : String → Nat → CallOutcome)
    (d : String) (hd : pyStrip d ≠ "")
    (hmiss : odGet (st.hashFn (pyStrip d)) st.cache = none)
    (hfail : ∀ k, (outcomeFailure (o (sentPrompt d) k)).isSome = true)
    (hR : 1 ≤ st.maxRetries) :
    (st.classify o d).calls = st.maxRetries ∧
    (st.classify o d).result =
      .error (.exhausted st.maxRetries
        (outcomeFailure (o (sentPrompt d) st.maxRetries))) ∧
    (st.classify o d).state.cache = st.cache := by
  rw [classify_miss hd hmiss]
  rw [classifyLoop_all_fail hfail st.maxRetries 1 none]
  refine ⟨rfl, ?_, rfl⟩
  obtain ⟨r, hr⟩ : ∃ r, st.maxRetries = r + 1 := ⟨st.maxRetries - 1, by omega⟩
  simp only [hr, loopLastErr]
  rw [Nat.add_comm 1 r]

/-- C3 witness: with `max_retries = 2` and a stub whose content is always
empty, `classify` makes exactly 2 model calls and raises carrying the
empty-response error, leaving the cache empty. -/
theorem C3_retry_exhaustion_witness :
    (Classifier.classify ⟨2, 50, fun s => s, []⟩ (fun _ _ => .respond none) "hello").calls = 2 ∧
    (Classifier.classify ⟨2, 50, fun s => s, []⟩ (fun _ _ => .respond none) "hello").result =
      .error (.exhausted 2 (some .emptyResponse)) ∧
    (Classifier.classify ⟨2, 50, fun s => s, []⟩
        (fun _ _ => .respond none) "hello").state.cache = [] :=
  C3_retry_exhaustion ⟨2, 50, fun s => s, []⟩ (fun _ _ => .respond none) "hello"
    (by decide) rfl (fun _ => rfl) (by decide)

/-- C4: empty or whitespace-only input makes `classify` raise the
input-rejection `ClassificationError` immediately: zero model calls, zero
backoff sleeps, and the classifier state (its cache included) unchanged. -/
theorem C4_input_rejection (st : Classifier) (o : String → Nat → CallOutcome)
    (d : String) (h : pyStrip d = "") :
    st.classify o d = ⟨.error .emptyInput, st, 0, 0⟩ :=
  classify_strip_empty h

/-- C4 witness: `classify("   ")` rejects the whitespace-only input with no
model call and no state change. -/
theorem C4_input_rejection_witness :
    Classifier.classify ⟨2, 50, fun s => s, []⟩ (fun _ _ => .respond none) "   " =
      ⟨.error .emptyInput, ⟨2, 50, fun s => s, []⟩, 0, 0⟩ :=
  C4_input_rejection ⟨2, 50, fun s => s, []⟩ (fun _ _ => .respond none) "   " (by decide)

/-- C5: after a successful `classify(T)`, calling `classify(T)` again without
an intervening eviction (capacity at least 1, well-formed cache keys) returns
the identical pair and performs zero model calls, served from the cache. -/
theorem C5_cache_hit_determinism (st : Classifier) (o₁ o₂ : String → Nat → CallOutcome)
    (d : String) (x y : String) (hnd : (odKeys st.cache).Nodup)
    (hsize : 1 ≤ st.cacheSize)
    (h : (st.classify o₁ d).result = .ok (x, y)) :
    ((st.classify o₁ d).state.classify o₂ d).result = .ok (x, y) ∧
    ((st.classify o₁ d).state.classify o₂ d).calls = 0 :=
  classify_again_cached hnd hsize h

/-- C5 witness: a concrete first classification succeeds against a stub, and
the repeat call returns the identical pair with zero model calls even against
an oracle that would fail every call. -/
theorem C5_cache_hit_determinism_witness :
    ((Classifier.classify ⟨2, 50, fun s => s, []⟩
        (fun _ _ => .respond (some ⟨"ok", some [("X_Axis_Rubric_Category", "Has some Grammar"),
          ("Y_Axis_Rubric_Category", "Prototype Status")]⟩)) "a todo app").state.classify
        (fun _ _ => .raised "network down") "a todo app").result =
      .ok ("Has some Grammar", "Prototype Status") ∧
    ((Classifier.classify ⟨2, 50, fun s => s, []⟩
        (fun _ _ => .respond (some ⟨"ok", some [("X_Axis_Rubric_Category", "Has some Grammar"),
          ("Y_Axis_Rubric_Category", "Prototype Status")]⟩)) "a todo app").state.classify
        (fun _ _ => .raised "network down") "a todo app").calls = 0 :=
  C5_cache_hit_determinism ⟨2, 50, fun s => s, []⟩ _ _ "a todo app"
    "Has some Grammar" "Prototype Status" (by decide) (by decide) (by decide)

/-- C1 counterexample: a stubbed model response whose two values are in
neither closed vocabulary is returned by `classify` as a success, and the
invalid pair is stored in the cache — it is not rejected as a validation
failure and no `ClassificationError` is raised. -/
theorem C1_vocabulary_counterexample :
    (Classifier.classify ⟨2, 50, fun s => s, []⟩
        (fun _ _ => .respond (some ⟨"resp", some [("X_Axis_Rubric_Category", "Pretty Good"),
          ("Y_Axis_Rubric_Category", "Some Stuff")]⟩)) "a smart water bottle").result =
      .ok ("Pretty Good", "Some Stuff") ∧
    "Pretty Good" ∉ xVocabulary ∧
    "Some Stuff" ∉ yVocabulary ∧
    odGet "a smart water bottle"
      ((Classifier.classify ⟨2, 50, fun s => s, []⟩
        (fun _ _ => .respond (some ⟨"resp", some [("X_Axis_Rubric_Category", "Pretty Good"),
          ("Y_Axis_Rubric_Category", "Some Stuff")]⟩)) "a smart water bottle").state.cache) =
      some ("Pretty Good", "Some Stuff") := by
  decide

/-- C1 (amended): `classify` performs no vocabulary-membership check: any
pair of values found under the two required JSON keys — inside or outside
the closed vocabularies — is returned to the caller and stored in the cache;
only JSON-parse failures, missing keys and API failures are retried and,
after the budget, surface as `ClassificationError`. -/
theorem C1_no_vocabulary_validation (st : Classifier) (o : String → Nat → CallOutcome)
    (d : String) (raw : RawResponse) (payload : List (String × String)) (x y : String)
    (hsize : 1 ≤ st.cacheSize) (hd : pyStrip d ≠ "")
    (hmiss : odGet (st.hashFn (pyStrip d)) st.cache = none)
    (ho : o (sentPrompt d) 1 = .respond (some raw))
    (hj : jsonLoads raw = some payload)
    (hx : lookupField "X_Axis_Rubric_Category" payload = some x)
    (hy : lookupField "Y_Axis_Rubric_Category" payload = some y)
    (hR : 1 ≤ st.maxRetries) :
    (st.classify o d).result = .ok (x, y) ∧
    odGet (st.hashFn (pyStrip d)) (st.classify o d).state.cache = some (x, y) := by
  rw [classify_miss hd hmiss]
  obtain ⟨r, hr⟩ : ∃ r, st.maxRetries = r + 1 := ⟨st.maxRetries - 1, by omega⟩
  have ha : attemptOnce st.cacheSize st.cache (st.hashFn (pyStrip d))
      (o (sentPrompt d) 1) =
      .ok ((x, y), cacheAfterStore st.cacheSize (st.hashFn (pyStrip d)) (x, y) st.cache) := by
    rw [ho]
    exact attemptOnce_ok_of hj hx hy
  simp only [hr, classifyLoop, ha]
  exact ⟨by trivial, odGet_cacheAfterStore_fresh hmiss hsize⟩

/-- C1 witness: a concrete out-of-vocabulary pair is accepted, returned and
cached by `classify`. -/
theorem C1_no_vocabulary_validation_witness :
    (Classifier.classify ⟨2, 50, fun s => s, []⟩
        (fun _ _ => .respond (some ⟨"resp", some [("X_Axis_Rubric_Category", "Excellent Work"),
          ("Y_Axis_Rubric_Category", "Misc Things")]⟩)) "a recycling robot").result =
      .ok ("Excellent Work", "Misc Things") ∧
    odGet "a recycling robot"
      ((Classifier.classify ⟨2, 50, fun s => s, []⟩
        (fun _ _ => .respond (some ⟨"resp", some [("X_Axis_Rubric_Category", "Excellent Work"),
          ("Y_Axis_Rubric_Category", "Misc Things")]⟩)) "a recycling robot").state.cache) =
      some ("Excellent Work", "Misc Things") :=
  C1_no_vocabulary_validation ⟨2, 50, fun s => s, []⟩ _ "a recycling robot"
    ⟨"resp", some [("X_Axis_Rubric_Category", "Excellent Work"),
      ("Y_Axis_Rubric_Category", "Misc Things")]⟩
    [("X_Axis_Rubric_Category", "Excellent Work"), ("Y_Axis_Rubric_Category", "Misc Things")]
    "Excellent Work" "Misc Things"
    (by decide) (by decide) rfl rfl rfl (by decide) (by decide) (by decide)

/-- C2 counterexample: an exception that the repository itself classifies as
an authentication failure (its message contains "authentication") is
nonetheless retried by `classify`: with `max_retries = 2` it consumes both
attempts and both backoff sleeps instead of surfacing immediately. -/
theorem C2_permanent_retried_counterexample :
    pyIn "authentication" (pyLower "Error code: 401 - invalid authentication credentials")
      = true ∧
    (Classifier.classify ⟨2, 50, fun s => s, []⟩
        (fun _ _ => .raised "Error code: 401 - invalid authentication credentials")
        "hello").calls = 2 ∧
    (Classifier.classify ⟨2, 50, fun s => s, []⟩
        (fun _ _ => .raised "Error code: 401 - invalid authentication credentials")
        "hello").sleeps = 2 := by
  decide

/-- C2 (amended): `OptimizedPrototypeClassifier.classify` has no permanent
failure class — every exception, authentication failures included, is
retried with backoff up to the budget; only `classify_problem_statement`
surfaces failures immediately, and only those whose message contains
"authentication" or "rate_limit": such a failure on the first attempt
returns at once with one model call and no backoff sleep. -/
theorem C2_permanent_error_handling :
    (∀ (st : Classifier) (o : String → Nat → CallOutcome) (d msg : String),
      2 ≤ st.maxRetries → pyStrip d ≠ "" →
      odGet (st.hashFn (pyStrip d)) st.cache = none →
      o (sentPrompt d) 1 = .raised msg →
      2 ≤ (st.classify o d).calls ∧ 1 ≤ (st.classify o d).sleeps) ∧
    (∀ (key : String) (o : String → Nat → PSCallOutcome) (idea ps msg : String),
      key ≠ "" → ¬ (pyStrip key).length < 10 →
      o (psUserPrompt idea ps) 0 = .raised msg →
      pyIn "authentication" (pyLower msg) = true →
      classifyProblemStatement (some key) o idea ps =
        ⟨some { success := false
                error := some "Invalid API key. Please check your OPENAI_API_KEY." }, 1, 0⟩) := by
  constructor
  · intro st o d msg hR hd hmiss ho
    rw [classify_miss hd hmiss]
    obtain ⟨r, hr⟩ : ∃ r, st.maxRetries = r + 2 := ⟨st.maxRetries - 2, by omega⟩
    rw [hr]
    have ha : attemptOnce st.cacheSize st.cache (st.hashFn (pyStrip d))
        (o (sentPrompt d) 1) = .error (.apiRaised msg) := by
      rw [ho]; rfl
    exact classifyLoop_calls_ge_two ha
  · intro key o idea ps msg hk hlen ho hauth
    simp only [classifyProblemStatement, if_neg hk, if_neg hlen, psLoop, ho, hauth]
    simp

/-- C2 witness: both halves of the amended claim at concrete inputs — the
retried authentication failure in `classify`, and the immediate surfacing in
`classify_problem_statement`. -/
theorem C2_permanent_error_handling_witness :
    (2 ≤ (Classifier.classify ⟨2, 50, fun s => s, []⟩
        (fun _ _ => .raised "401 authentication failed") "hello").calls ∧
      1 ≤ (Classifier.classify ⟨2, 50, fun s => s, []⟩
        (fun _ _ => .raised "401 authentication failed") "hello").sleeps) ∧
    classifyProblemStatement (some "0123456789abc")
        (fun _ _ => .raised "401 Authentication error") "an idea" "a problem" =
      ⟨some { success := false
              error := some "Invalid API key. Please check your OPENAI_API_KEY." }, 1, 0⟩ :=
  ⟨C2_permanent_error_handling.1 ⟨2, 50, fun s => s, []⟩
      (fun _ _ => .raised "401 authentication failed") "hello"
      "401 authentication failed" (by decide) (by decide) rfl rfl,
    C2_permanent_error_handling.2 "0123456789abc"
      (fun _ _ => .raised "401 Authentication error") "an idea" "a problem"
      "401 Authentication error" (by decide) (by decide) rfl (by decide)⟩

set_option maxRecDepth 100000 in
/-- C6: the cache promotes an entry to most-recently-used (last position) on
every hit; a successful parse that pushes the entry count past the capacity
evicts exactly one entry, the least-recently-used head, while an insertion
below capacity evicts nothing; and in the concrete scenario with the default
capacity 50, classifying 51 distinct texts (all misses) from an empty cache
evicts exactly the first text's key while the other 50 remain present. -/
theorem C6_lru_eviction :
    (∀ (st : Classifier) (o : String → Nat → CallOutcome) (d : String) (v : CacheVal),
      pyStrip d ≠ "" → odGet (st.hashFn (pyStrip d)) st.cache = some v →
      (st.classify o d).state.cache = odMoveToEnd (st.hashFn (pyStrip d)) st.cache ∧
      (odMoveToEnd (st.hashFn (pyStrip d)) st.cache).getLast? =
        some (st.hashFn (pyStrip d), v)) ∧
    (∀ (size : Nat) (cache : Cache) (raw : RawResponse)
      (payload : List (String × String)) (key x y : String),
      jsonLoads raw = some payload →
      lookupField "X_Axis_Rubric_Category" payload = some x →
      lookupField "Y_Axis_Rubric_Category" payload = some y →
      odGet key cache = none → 1 ≤ size →
      (cache.length = size →
        parseResponseAndUpdateCache size cache raw key =
          .ok ((x, y), cache.tail ++ [(key, (x, y))])) ∧
      (cache.length < size →
        parseResponseAndUpdateCache size cache raw key =
          .ok ((x, y), cache ++ [(key, (x, y))]))) ∧
    (odGet "t0" (runClassifyAll ⟨2, 50, fun s => s, []⟩
        (fun _ _ => .respond (some ⟨"r", some [("X_Axis_Rubric_Category", "X"),
          ("Y_Axis_Rubric_Category", "Y")]⟩))
        ((List.range 51).map (fun n => "t" ++ toString n))).cache = none ∧
      ((List.range 50).all (fun n => (odGet ("t" ++ toString (n + 1))
        (runClassifyAll ⟨2, 50, fun s => s, []⟩
          (fun _ _ => .respond (some ⟨"r", some [("X_Axis_Rubric_Category", "X"),
            ("Y_Axis_Rubric_Category", "Y")]⟩))
          ((List.range 51).map (fun n => "t" ++ toString n))).cache).isSome)) = true) := by
  refine ⟨?_, ?_, by decide⟩
  · intro st o d v hd hg
    rw [classify_hit hd hg]
    exact ⟨rfl, odMoveToEnd_getLast hg⟩
  · intro size cache raw payload key x y hj hx hy hmiss hsize
    have hparse : parseResponseAndUpdateCache size cache raw key =
        .ok ((x, y), cacheAfterStore size key (x, y) cache) := by
      simp [parseResponseAndUpdateCache, hj, hx, hy, cacheAfterStore]
    constructor
    · intro hfull
      rw [hparse, cacheAfterStore_full hmiss hfull hsize]
    · intro hlt
      rw [hparse, cacheAfterStore_not_full hmiss hlt]

/-- C6 witness: the hit-promotion part on a one-entry cache, and both
eviction cases of the insertion part on concrete caches. -/
theorem C6_lru_eviction_witness :
    ((Classifier.classify ⟨2, 1, fun _ => "k1", [("k1", ("a", "b"))]⟩
        (fun _ _ => .respond none) "x").state.cache =
        odMoveToEnd "k1" [("k1", ("a", "b"))] ∧
      (odMoveToEnd "k1" [("k1", ("a", "b"))]).getLast? = some ("k1", ("a", "b"))) ∧
    parseResponseAndUpdateCache 1 [("k0", ("u", "v"))]
        ⟨"r", some [("X_Axis_Rubric_Category", "x1"), ("Y_Axis_Rubric_Category", "y1")]⟩
        "k9" = .ok (("x1", "y1"), [("k9", ("x1", "y1"))]) ∧
    parseResponseAndUpdateCache 2 [("k0", ("u", "v"))]
        ⟨"r", some [("X_Axis_Rubric_Category", "x1"), ("Y_Axis_Rubric_Category", "y1")]⟩
        "k9" = .ok (("x1", "y1"), [("k0", ("u", "v")), ("k9", ("x1", "y1"))]) :=
  ⟨C6_lru_eviction.1 ⟨2, 1, fun _ => "k1", [("k1", ("a", "b"))]⟩
      (fun _ _ => .respond none) "x" ("a", "b") (by decide) rfl,
    (C6_lru_eviction.2.1 1 [("k0", ("u", "v"))]
      ⟨"r", some [("X_Axis_Rubric_Category", "x1"), ("Y_Axis_Rubric_Category", "y1")]⟩
      [("X_Axis_Rubric_Category", "x1"), ("Y_Axis_Rubric_Category", "y1")]
      "k9" "x1" "y1" rfl (by decide) (by decide) (by decide) (by decide)).1 rfl,
    (C6_lru_eviction.2.1 2 [("k0", ("u", "v"))]
      ⟨"r", some [("X_Axis_Rubric_Category", "x1"), ("Y_Axis_Rubric_Category", "y1")]⟩
      [("X_Axis_Rubric_Category", "x1"), ("Y_Axis_Rubric_Category", "y1")]
      "k9" "x1" "y1" rfl (by decide) (by decide) (by decide) (by decide)).2 (by decide)⟩

/-- C7: in every configuration reachable by any cooperative scheduling of
`classify_batch`'s workers, at most `max_concurrent` classification
operations are in flight, and whenever `asyncio.gather` completes (all tasks
done, in any completion order) the result list is positionally aligned with
the input: result `i` is the classification outcome of `descriptions[i]`. -/
theorem C7_batch_order_and_bound (f : String → BatchRes) (maxC : Nat)
    (ds : List String) (s : BatchState)
    (h : Relation.ReflTransGen (BatchStep f) (initBatch maxC ds) s) :
    inFlight s ≤ maxC ∧
    ∀ rs, gatherResults s.tasks = some rs → rs = ds.map f := by
  obtain ⟨hfst, hbal, hdone⟩ := batchInv_trace h
  constructor
  · omega
  · intro rs hg
    have hrs := gatherResults_eq s.tasks rs hdone hg
    rw [hfst] at hrs
    exact hrs

/-- C7 witness: a two-task batch under permit bound 2 scheduled so that the
second task completes before the first; the bound holds and the final
results stand in input order. -/
theorem C7_batch_order_and_bound_witness :
    inFlight ⟨2, [("A", .done (.ok ("A", "A"))), ("B", .done (.ok ("B", "B")))]⟩ ≤ 2 ∧
    [(Except.ok ("A", "A") : BatchRes), .ok ("B", "B")] =
      ["A", "B"].map (fun d => (Except.ok (d, d) : BatchRes)) := by
  have t1 : BatchStep (fun d => (Except.ok (d, d) : BatchRes))
      (initBatch 2 ["A", "B"]) ⟨1, [("A", .pending), ("B", .running)]⟩ :=
    BatchStep.start 1 [("A", .pending), ("B", .pending)] 1 "B" rfl
  have t2 : BatchStep (fun d => (Except.ok (d, d) : BatchRes))
      ⟨1, [("A", .pending), ("B", .running)]⟩
      ⟨0, [("A", .running), ("B", .running)]⟩ :=
    BatchStep.start 0 [("A", .pending), ("B", .running)] 0 "A" rfl
  have t3 : BatchStep (fun d => (Except.ok (d, d) : BatchRes))
      ⟨0, [("A", .running), ("B", .running)]⟩
      ⟨1, [("A", .running), ("B", .done (.ok ("B", "B")))]⟩ :=
    BatchStep.finish 0 [("A", .running), ("B", .running)] 1 "B" rfl
  have t4 : BatchStep (fun d => (Except.ok (d, d) : BatchRes))
      ⟨1, [("A", .running), ("B", .done (.ok ("B", "B")))]⟩
      ⟨2, [("A", .done (.ok ("A", "A"))), ("B", .done (.ok ("B", "B")))]⟩ :=
    BatchStep.finish 1 [("A", .running), ("B", .done (.ok ("B", "B")))] 0 "A" rfl
  have trace : Relation.ReflTransGen (BatchStep (fun d => (Except.ok (d, d) : BatchRes)))
      (initBatch 2 ["A", "B"])
      ⟨2, [("A", .done (.ok ("A", "A"))), ("B", .done (.ok ("B", "B")))]⟩ :=
    .tail (.tail (.tail (.tail .refl t1) t2) t3) t4
  have h := C7_batch_order_and_bound (fun d => (Except.ok (d, d) : BatchRes)) 2
    ["A", "B"] _ trace
  exact ⟨h.1, h.2 _ (by decide)⟩

/-- C8: `classify_problem_statement` never raises: every execution path
returns an envelope (never Python `None`); a `success = True` envelope
carries both rubric categories in `data`; a `success = False` envelope
carries an error message; and a JSON-parse failure preserves the raw model
text under `raw_response`. -/
theorem C8_envelope_discipline (apiKey : Option String)
    (oracle : String → Nat → PSCallOutcome) (ideaText problemStatementText : String) :
    (∃ env, (classifyProblemStatement apiKey oracle ideaText problemStatementText).envelope
        = some env ∧
      (env.success = true → ∃ x y, env.data = some (x, y)) ∧
      (env.success = false → env.error.isSome = true)) ∧
    (∀ raw, jsonLoads raw = none →
      (parseClassificationResponse raw).success = false ∧
      (parseClassificationResponse raw).rawResponse = some raw.text) := by
  constructor
  · obtain ⟨env, henv, hwf⟩ :=
      classifyProblemStatement_wf apiKey oracle ideaText problemStatementText
    exact ⟨env, henv, hwf.1, hwf.2⟩
  · intro raw h
    exact parseClassificationResponse_notJson h

/-- C8 witness: with a valid key and a stub returning non-JSON text the call
still produces an envelope, and the parse failure preserves the raw text. -/
theorem C8_envelope_discipline_witness :
    (∃ env, (classifyProblemStatement (some "0123456789key")
        (fun _ _ => .content ⟨"not json", none⟩) "idea" "problem").envelope = some env ∧
      (env.success = true → ∃ x y, env.data = some (x, y)) ∧
      (env.success = false → env.error.isSome = true)) ∧
    ((parseClassificationResponse ⟨"not json", none⟩).success = false ∧
      (parseClassificationResponse ⟨"not json", none⟩).rawResponse = some "not json") :=
  ⟨(C8_envelope_discipline (some "0123456789key")
      (fun _ _ => .content ⟨"not json", none⟩) "idea" "problem").1,
    (C8_envelope_discipline (some "0123456789key")
      (fun _ _ => .content ⟨"not json", none⟩) "idea" "problem").2
      ⟨"not json", none⟩ rfl⟩

/-- C9: the cache key is computed from the whole stripped text while the
prompt substitutes only its first 2000 characters; for two inputs whose
stripped forms agree on the first 2000 characters but differ beyond (so
their digests differ), the assembled prompts are identical, yet classifying
one after the other from an empty cache performs a live model call for each
— the cache entry is not shared. -/
theorem C9_truncation_vs_hash (st : Classifier) (o : String → Nat → CallOutcome)
    (t1 t2 : String) (hc : st.cache = []) (hR : 1 ≤ st.maxRetries)
    (h1 : pyStrip t1 ≠ "") (h2 : pyStrip t2 ≠ "")
    (htake : (pyStrip t1).data.take 2000 = (pyStrip t2).data.take 2000)
    (hhash : st.hashFn (pyStrip t1) ≠ st.hashFn (pyStrip t2)) :
    sentPrompt t1 = sentPrompt t2 ∧
    1 ≤ (st.classify o t1).calls ∧
    1 ≤ ((st.classify o t1).state.classify o t2).calls := by
  refine ⟨?_, ?_, ?_⟩
  · unfold sentPrompt promptFormat pySlice
    rw [htake]
  · have hmiss : odGet (st.hashFn (pyStrip t1)) st.cache = none := by rw [hc]; rfl
    rw [classify_miss h1 hmiss]
    obtain ⟨r, hr⟩ : ∃ r, st.maxRetries = r + 1 := ⟨st.maxRetries - 1, by omega⟩
    rw [hr]
    exact classifyLoop_calls_pos
  · have hhf : (st.classify o t1).state.hashFn = st.hashFn :=
      (classify_config_preserved st o t1).1
    have hmr : (st.classify o t1).state.maxRetries = st.maxRetries :=
      (classify_config_preserved st o t1).2
    have hmiss2 : odGet ((st.classify o t1).state.hashFn (pyStrip t2))
        (st.classify o t1).state.cache = none := by
      apply odGet_eq_none_of_not_mem
      rw [hhf]
      intro hmem
      rcases classify_keys_subset hmem with heq | hin
      · exact hhash heq.symm
      · rw [hc] at hin
        exact (List.not_mem_nil _) hin
    rw [classify_miss h2 hmiss2]
    obtain ⟨r, hr⟩ : ∃ r, (st.classify o t1).state.maxRetries = r + 1 :=
      ⟨(st.classify o t1).state.maxRetries - 1, by omega⟩
    rw [hr]
    exact classifyLoop_calls_pos

/-- C9 witness: two 2001-character inputs equal on their first 2000
characters and differing in the last one — identical prompts, distinct keys,
one live model call each. -/
theorem C9_truncation_vs_hash_witness :
    sentPrompt (String.mk (List.replicate 2000 'a' ++ ['a'])) =
      sentPrompt (String.mk (List.replicate 2000 'a' ++ ['b'])) ∧
    1 ≤ (Classifier.classify ⟨1, 50, fun s => s, []⟩ (fun _ _ => .respond none)
        (String.mk (List.replicate 2000 'a' ++ ['a']))).calls ∧
    1 ≤ ((Classifier.classify ⟨1, 50, fun s => s, []⟩ (fun _ _ => .respond none)
        (String.mk (List.replicate 2000 'a' ++ ['a']))).state.classify
        (fun _ _ => .respond none)
        (String.mk (List.replicate 2000 'a' ++ ['b']))).calls := by
  have hallA : ∀ c ∈ (String.mk (List.replicate 2000 'a' ++ ['a'])).data,
      Char.isWhitespace c = false := by
    intro c hc
    rcases List.mem_append.mp hc with hm | hm
    · rw [List.eq_of_mem_replicate hm]; decide
    · simp only [List.mem_singleton] at hm; rw [hm]; decide
  have hallB : ∀ c ∈ (String.mk (List.replicate 2000 'a' ++ ['b'])).data,
      Char.isWhitespace c = false := by
    intro c hc
    rcases List.mem_append.mp hc with hm | hm
    · rw [List.eq_of_mem_replicate hm]; decide
    · simp only [List.mem_singleton] at hm; rw [hm]; decide
  have hsA := pyStrip_eq_self hallA
  have hsB := pyStrip_eq_self hallB
  have e1 := take_append_length (List.replicate 2000 'a') ['a']
  have e2 := take_append_length (List.replicate 2000 'a') ['b']
  have d1 := drop_append_length (List.replicate 2000 'a') ['a']
  have d2 := drop_append_length (List.replicate 2000 'a') ['b']
  rw [List.length_replicate] at e1 e2 d1 d2
  refine C9_truncation_vs_hash ⟨1, 50, fun s => s, []⟩ (fun _ _ => .respond none)
    (String.mk (List.replicate 2000 'a' ++ ['a']))
    (String.mk (List.replicate 2000 'a' ++ ['b']))
    rfl (by decide) ?_ ?_ ?_ ?_
  · rw [hsA]
    intro h
    have hd := congrArg String.data h
    have h0 : ("" : String).data = [] := rfl
    rw [h0] at hd
    have hlen := congrArg List.length hd
    rw [List.length_append, List.length_replicate, List.length_nil] at hlen
    omega
  · rw [hsB]
    intro h
    have hd := congrArg String.data h
    have h0 : ("" : String).data = [] := rfl
    rw [h0] at hd
    have hlen := congrArg List.length hd
    rw [List.length_append, List.length_replicate, List.length_nil] at hlen
    omega
  · rw [hsA, hsB]
    show (List.replicate 2000 'a' ++ ['a']).take 2000 =
      (List.replicate 2000 'a' ++ ['b']).take 2000
    rw [e1, e2]
  · rw [hsA, hsB]
    intro h
    have hd := congrArg String.data h
    have hdrop := congrArg (List.drop 2000) hd
    simp only at hdrop
    rw [d1, d2] at hdrop
    simp at hdrop

/-- C10: `classify_sync` is observably identical to `classify` — same
stripping, key function, cache, truncation, parsing and retry logic — and on
cached inputs the two paths interoperate: after a successful async
`classify(T)`, a sync `classify_sync(T)` returns the identical pair with
zero model calls, and vice versa. -/
theorem C10_sync_async_equivalence :
    (∀ (st : Classifier) (o : String → Nat → CallOutcome) (d : String),
      st.classifySync o d = st.classify o d) ∧
    (∀ (st : Classifier) (o₁ o₂ : String → Nat → CallOutcome) (d x y : String),
      (odKeys st.cache).Nodup → 1 ≤ st.cacheSize →
      (st.classify o₁ d).result = .ok (x, y) →
      ((st.classify o₁ d).state.classifySync o₂ d).result = .ok (x, y) ∧
      ((st.classify o₁ d).state.classifySync o₂ d).calls = 0) ∧
    (∀ (st : Classifier) (o₁ o₂ : String → Nat → CallOutcome) (d x y : String),
      (odKeys st.cache).Nodup → 1 ≤ st.cacheSize →
      (st.classifySync o₁ d).result = .ok (x, y) →
      ((st.classifySync o₁ d).state.classify o₂ d).result = .ok (x, y) ∧
      ((st.classifySync o₁ d).state.classify o₂ d).calls = 0) := by
  have heq : ∀ (st : Classifier) (o : String → Nat → CallOutcome) (d : String),
      st.classifySync o d = st.classify o d := fun _ _ _ => rfl
  refine ⟨heq, ?_, ?_⟩
  · intro st o₁ o₂ d x y hnd hsize h
    rw [heq]
    exact classify_again_cached hnd hsize h
  · intro st o₁ o₂ d x y hnd hsize h
    rw [heq] at h ⊢
    exact classify_again_cached hnd hsize h

/-- C10 witness: the definitional equality at a concrete input, and a
concrete async-then-sync round trip served from the cache with zero model
calls. -/
theorem C10_sync_async_equivalence_witness :
    Classifier.classifySync ⟨2, 50, fun s => s, []⟩ (fun _ _ => .respond none) "hello" =
      Classifier.classify ⟨2, 50, fun s => s, []⟩ (fun _ _ => .respond none) "hello" ∧
    ((Classifier.classify ⟨2, 50, fun s => s, []⟩
        (fun _ _ => .respond (some ⟨"ok", some [("X_Axis_Rubric_Category", "Has some Grammar"),
          ("Y_Axis_Rubric_Category", "Prototype Status")]⟩)) "a robot").state.classifySync
        (fun _ _ => .raised "down") "a robot").result =
      .ok ("Has some Grammar", "Prototype Status") ∧
    ((Classifier.classify ⟨2, 50, fun s => s, []⟩
        (fun _ _ => .respond (some ⟨"ok", some [("X_Axis_Rubric_Category", "Has some Grammar"),
          ("Y_Axis_Rubric_Category", "Prototype Status")]⟩)) "a robot").state.classifySync
        (fun _ _ => .raised "down") "a robot").calls = 0 :=
  ⟨C10_sync_async_equivalence.1 ⟨2, 50, fun s => s, []⟩ (fun _ _ => .respond none) "hello",
    (C10_sync_async_equivalence.2.1 ⟨2, 50, fun s => s, []⟩
      (fun _ _ => .respond (some ⟨"ok", some [("X_Axis_Rubric_Category", "Has some Grammar"),
        ("Y_Axis_Rubric_Category", "Prototype Status")]⟩))
      (fun _ _ => .raised "down") "a robot" "Has some Grammar" "Prototype Status"
      (by decide) (by decide) (by decide)).1,
    (C10_sync_async_equivalence.2.1 ⟨2, 50, fun s => s, []⟩
      (fun _ _ => .respond (some ⟨"ok", some [("X_Axis_Rubric_Category", "Has some Grammar"),
        ("Y_Axis_Rubric_Category", "Prototype Status")]⟩))
      (fun _ _ => .raised "down") "a robot" "Has some Grammar" "Prototype Status"
      (by decide) (by decide) (by decide)).2⟩

end Launchpad
